import Mathlib

/-!
Shallow embedding of the `rest` package of the todo-api microservice:
the task HTTP handlers (`src/unnamed/part_000`) and the response / error
renderers (`src/internal/rest/rest.go`), together with the domain types of
the `internal` package they depend on.

HTTP responses are modelled as the observable triple written to the
`http.ResponseWriter`: the `Content-Type` header, the status code, and the
body bytes (as a `String`).  Go's `encoding/json` marshalling of the
concrete response structs is embedded faithfully, including struct-tag
field names, `omitempty`, and the encoder's string escaping (quote,
backslash, control characters, and the HTML characters `<`, `>`, `&`).
-/

/-- JSON hex digit used by the Go encoder for `\u00XX` escapes. -/
def hexDigit (n : Nat) : Char :=
  if n < 10 then Char.ofNat (48 + n) else Char.ofNat (87 + n)

/-- Escaping of a single character exactly as Go's `encoding/json` encoder
performs it (with the default `SetEscapeHTML(true)` behaviour). -/
def escapeChar (c : Char) : String :=
  if c = '"' then "\\\""
  else if c = '\\' then "\\\\"
  else if c = '\n' then "\\n"
  else if c = '\r' then "\\r"
  else if c = '\t' then "\\t"
  else if c = '<' then "\\u003c"
  else if c = '>' then "\\u003e"
  else if c = '&' then "\\u0026"
  else if c.toNat < 32 then
    "\\u00" ++ String.singleton (hexDigit (c.toNat / 16)) ++ String.singleton (hexDigit (c.toNat % 16))
  else if c.toNat = 8232 then "\\u2028"
  else if c.toNat = 8233 then "\\u2029"
  else String.singleton c

/-- Go `encoding/json` encoding of a string value, quotes included. -/
def encodeJSONString (s : String) : String :=
  "\"" ++ String.join (s.toList.map escapeChar) ++ "\""

namespace Internal

/-- Modelled from the spec: the domain priority enumeration of the
`internal` package (not under `src/`): "priority (enumerated:
unset/low/medium/high or similar ordinal)". -/
inductive Priority
  | unset
  | low
  | medium
  | high
deriving DecidableEq

/-- Modelled from the spec: the domain date pair of the `internal` package
(not under `src/`): "dates (a pair: start date, due date — both
optional/nullable)".  Dates are carried opaquely as strings. -/
structure Dates where
  start : Option String
  due : Option String
deriving DecidableEq

/-- Modelled from the spec: the domain task entity of the `internal`
package (not under `src/`): "identifier (string, UUID-formatted),
description (string), priority, dates". -/
structure Task where
  ID : String
  Description : String
  Priority : Internal.Priority
  Dates : Internal.Dates
deriving DecidableEq

/-- Modelled from the spec: the closed domain error taxonomy of the
`internal` package (not under `src/`): "a closed set of error kinds
(not-found, invalid-argument, unknown)". -/
inductive ErrorCode
  | unknown
  | notFound
  | invalidArgument
deriving DecidableEq

end Internal

/-- Modelled from the spec: a Go `error` value as seen by the renderer.
`nil` is the nil interface value; `plain` is a non-nil error that does not
carry the domain classification ("treated as opaque/internal"); `domain`
is an error whose chain contains an `*internal.Error` with the given code,
original message, and (possibly empty) field-level validation failures
("invalid-argument (optionally with field-level validation detail)"). -/
inductive ErrVal
  | nil
  | plain (msg : String)
  | domain (code : Internal.ErrorCode) (orig : String) (validations : List (String × String))
deriving DecidableEq

/-- Modelled from the spec: the `errors.As(err, &ierr)` downcast for
`*internal.Error` — it succeeds exactly when the error chain carries the
domain classification, and fails on a nil error. -/
def errorsAsInternal : ErrVal → Option (Internal.ErrorCode × String × List (String × String))
  | ErrVal.nil => Option.none
  | ErrVal.plain _ => Option.none
  | ErrVal.domain code orig v => some (code, orig, v)

/-- Whether an error value carries the recognized domain classification. -/
def carriesClassification (err : ErrVal) : Bool :=
  (errorsAsInternal err).isSome

/-- The observable HTTP response: the `Content-Type` header (if set), the
status code written by `WriteHeader`, and the body bytes written (if any). -/
structure HttpResponse where
  contentType : Option String
  status : Nat
  body : Option String
deriving DecidableEq

namespace Rest

/-- `ErrorResponse` of `src/internal/rest/rest.go`: an error message plus
the `validations,omitempty` mapping (modelled as an association list; the
empty list is the empty/nil map, which `omitempty` omits). -/
structure ErrorResponse where
  Error : String
  Validations : List (String × String)
deriving DecidableEq

/-- Modelled from the spec: `encoding/json` marshalling of a
`validation.Errors` field-name → failure-message mapping as a JSON object
(entries in the stored order). -/
def marshalValidationErrors (v : List (String × String)) : String :=
  "\x7b" ++ String.intercalate "," (v.map (fun p => encodeJSONString p.1 ++ ":" ++ encodeJSONString p.2)) ++ "\x7d"

/-- `encoding/json` marshalling of `ErrorResponse` per its struct tags:
`{"error":...}` with `"validations"` appended only when the mapping is
non-empty (`omitempty`).  Marshalling these values never fails, hence
`some`. -/
def marshalErrorResponse (e : ErrorResponse) : Option String :=
  some ("\x7b\"error\":" ++ encodeJSONString e.Error ++
    (match e.Validations with
     | [] => ""
     | v => ",\"validations\":" ++ marshalValidationErrors v) ++ "\x7d")

/-- `renderResponse` of `src/internal/rest/rest.go`: set the content type,
marshal the value, and on marshalling failure write status 500 with no
body, otherwise write the given status and the marshalled content.  The
marshalling function is passed explicitly, standing for `json.Marshal` at
the value's type. -/
def renderResponse {α : Type} (marshal : α → Option String) (res : α) (status : Nat) : HttpResponse :=
  match marshal res with
  | Option.none => { contentType := some "application/json", status := 500, body := Option.none }
  | some content => { contentType := some "application/json", status := status, body := some content }

/-- `renderErrorResponse` of `src/internal/rest/rest.go`: start from the
caller message and status 500; if the error does not downcast to
`*internal.Error`, replace the message by "internal error"; otherwise map
the code (not-found → 404, invalid-argument → 400 attaching any
validation mapping, unknown/default → 500); then delegate to
`renderResponse`.  The tracing-span side channel takes no part in the
response and is not modelled. -/
def renderErrorResponse (msg : String) (err : ErrVal) : HttpResponse :=
  match errorsAsInternal err with
  | Option.none =>
      renderResponse marshalErrorResponse { Error := "internal error", Validations := [] } 500
  | some (Internal.ErrorCode.notFound, _, _) =>
      renderResponse marshalErrorResponse { Error := msg, Validations := [] } 404
  | some (Internal.ErrorCode.invalidArgument, _, v) =>
      renderResponse marshalErrorResponse { Error := msg, Validations := v } 400
  | some (Internal.ErrorCode.unknown, _, _) =>
      renderResponse marshalErrorResponse { Error := msg, Validations := [] } 500

/-- Modelled from the spec: the earlier-signature error renderer invoked by
the handlers of `src/unnamed/part_000` (`renderErrorResponse(w, msg,
status)`), whose definition is not under `src/` — only its call sites are.
Per the spec's renderer contract it produces "an HTTP status and a JSON
error body" whose error text is the caller message, delegating to the
response renderer with the caller's status; taking no error value, it
performs no classification. -/
def renderErrorResponseStatus (msg : String) (status : Nat) : HttpResponse :=
  renderResponse marshalErrorResponse { Error := msg, Validations := [] } status

/-- Modelled from the spec: the wire `Priority` type of the `rest` package
(defined outside `src/`): "a JSON-serializable representation of the
domain priority enumeration; must support conversion to/from the domain
enumeration without loss". -/
inductive Priority
  | unset
  | low
  | medium
  | high
deriving DecidableEq

/-- Modelled from the spec: lossless conversion from the wire priority to
the domain priority (`Priority.Convert` in the source). -/
def Priority.Convert : Priority → Internal.Priority
  | Priority.unset => Internal.Priority.unset
  | Priority.low => Internal.Priority.low
  | Priority.medium => Internal.Priority.medium
  | Priority.high => Internal.Priority.high

/-- Modelled from the spec: lossless conversion from the domain priority to
the wire priority (`NewPriority` in the source). -/
def NewPriority : Internal.Priority → Priority
  | Internal.Priority.unset => Priority.unset
  | Internal.Priority.low => Priority.low
  | Internal.Priority.medium => Priority.medium
  | Internal.Priority.high => Priority.high

/-- Modelled from the spec: `encoding/json` marshalling of the wire
priority as its ordinal number. -/
def Priority.marshal : Priority → String
  | Priority.unset => "0"
  | Priority.low => "1"
  | Priority.medium => "2"
  | Priority.high => "3"

/-- Modelled from the spec: the wire `Dates` type of the `rest` package
(defined outside `src/`): "a JSON-serializable representation of a
start/due date pair, converting to/from the domain date-pair type". -/
structure Dates where
  start : Option String
  due : Option String
deriving DecidableEq

/-- Modelled from the spec: conversion from the wire date pair to the
domain date pair (`Dates.Convert` in the source). -/
def Dates.Convert (d : Dates) : Internal.Dates :=
  { start := d.start, due := d.due }

/-- Modelled from the spec: conversion from the domain date pair to the
wire date pair (`NewDates` in the source). -/
def NewDates (d : Internal.Dates) : Dates :=
  { start := d.start, due := d.due }

/-- Marshalling of an optional date: `null` for an absent date, a JSON
string otherwise. -/
def marshalOptDate : Option String → String
  | Option.none => "null"
  | some s => encodeJSONString s

/-- Modelled from the spec: `encoding/json` marshalling of the wire date
pair as an object with the start and due dates. -/
def Dates.marshal (d : Dates) : String :=
  "\x7b\"start\":" ++ marshalOptDate d.start ++ ",\"due\":" ++ marshalOptDate d.due ++ "\x7d"

/-- The wire `Task` struct of `src/unnamed/part_000` with its JSON tags
`id`, `description`, `priority`, `dates`. -/
structure Task where
  ID : String
  Description : String
  Priority : Priority
  Dates : Dates
deriving DecidableEq

/-- `encoding/json` marshalling of the wire `Task` per its struct tags. -/
def Task.marshal (t : Task) : String :=
  "\x7b\"id\":" ++ encodeJSONString t.ID ++ ",\"description\":" ++ encodeJSONString t.Description ++
    ",\"priority\":" ++ t.Priority.marshal ++ ",\"dates\":" ++ t.Dates.marshal ++ "\x7d"

/-- `CreateTasksRequest` of `src/unnamed/part_000`. -/
structure CreateTasksRequest where
  Description : String
  Priority : Priority
  Dates : Dates
deriving DecidableEq

/-- `CreateTasksResponse` of `src/unnamed/part_000`, tag `task`. -/
structure CreateTasksResponse where
  task : Task
deriving DecidableEq

/-- `encoding/json` marshalling of `CreateTasksResponse`; never fails. -/
def marshalCreateTasksResponse (r : CreateTasksResponse) : Option String :=
  some ("\x7b\"task\":" ++ r.task.marshal ++ "\x7d")

/-- `ReadTasksResponse` of `src/unnamed/part_000`, tag `task`. -/
structure ReadTasksResponse where
  task : Task
deriving DecidableEq

/-- `encoding/json` marshalling of `ReadTasksResponse`; never fails. -/
def marshalReadTasksResponse (r : ReadTasksResponse) : Option String :=
  some ("\x7b\"task\":" ++ r.task.marshal ++ "\x7d")

/-- `UpdateTasksRequest` of `src/unnamed/part_000`. -/
structure UpdateTasksRequest where
  Description : String
  IsDone : Bool
  Priority : Priority
  Dates : Dates
deriving DecidableEq

/-- `encoding/json` marshalling of the anonymous empty struct
`&struct{}{}` rendered by the update handler; Go marshals it to `{}`. -/
def marshalEmptyStruct : Unit → Option String :=
  fun _ => some "\x7b\x7d"

/-- `TaskService` of `src/unnamed/part_000`: the service collaborator's
capability set.  Contexts carry no information used by this layer and are
dropped; a Go `(Task, error)` return is an `Except` (the handlers only
distinguish `err != nil`), and `Update`'s bare `error` return is an
`Option ErrVal` (`Option.none` is the nil error). -/
structure TaskService where
  Create : String → Internal.Priority → Internal.Dates → Except ErrVal Internal.Task
  Task : String → Except ErrVal Internal.Task
  Update : String → String → Internal.Priority → Internal.Dates → Bool → Option ErrVal

/-- A call made against the service collaborator, with its arguments. -/
inductive ServiceCall
  | create (description : String) (priority : Internal.Priority) (dates : Internal.Dates)
  | task (id : String)
  | update (id : String) (description : String) (priority : Internal.Priority) (dates : Internal.Dates) (isDone : Bool)
deriving DecidableEq

/-- Everything observable about one handler invocation: the HTTP response
written, the service calls made (in order), and whether `r.Body.Close()`
was executed before returning. -/
structure HandlerOutcome where
  response : HttpResponse
  calls : List ServiceCall
  bodyClosed : Bool
deriving DecidableEq

/-- `TaskHandler` of `src/unnamed/part_000`, holding the injected service
collaborator. -/
structure TaskHandler where
  svc : TaskService

/-- `NewTaskHandler` of `src/unnamed/part_000`. -/
def NewTaskHandler (svc : TaskService) : TaskHandler :=
  { svc := svc }

/-- The create handler of `src/unnamed/part_000`.  The JSON decode of the
request body is represented by its result: `Option.none` when
`json.Decode` returned an error (in particular for every syntactically
invalid body), `some req` on success.  On decode failure the handler
renders "invalid request" with status 400 and returns before the
`defer r.Body.Close()` statement is ever reached, so the body is not
closed on that path. -/
def TaskHandler.create (t : TaskHandler) (decodeResult : Option CreateTasksRequest) : HandlerOutcome :=
  match decodeResult with
  | Option.none =>
      { response := renderErrorResponseStatus "invalid request" 400
        calls := []
        bodyClosed := false }
  | some req =>
      match t.svc.Create req.Description req.Priority.Convert req.Dates.Convert with
      | Except.error _ =>
          { response := renderErrorResponseStatus "create failed" 500
            calls := [ServiceCall.create req.Description req.Priority.Convert req.Dates.Convert]
            bodyClosed := true }
      | Except.ok task =>
          { response :=
              renderResponse marshalCreateTasksResponse
                { task :=
                    { ID := task.ID
                      Description := task.Description
                      Priority := NewPriority task.Priority
                      Dates := NewDates task.Dates } }
                201
            calls := [ServiceCall.create req.Description req.Priority.Convert req.Dates.Convert]
            bodyClosed := true }

/-- The fetch handler of `src/unnamed/part_000`.  The `id` path variable is
a parameter (the router guarantees its presence).  On any service error it
renders "find failed" with status 500 — the source does not yet
differentiate not-found from internal errors. -/
def TaskHandler.task (t : TaskHandler) (id : String) : HandlerOutcome :=
  match t.svc.Task id with
  | Except.error _ =>
      { response := renderErrorResponseStatus "find failed" 500
        calls := [ServiceCall.task id]
        bodyClosed := true }
  | Except.ok task =>
      { response :=
          renderResponse marshalReadTasksResponse
            { task :=
                { ID := task.ID
                  Description := task.Description
                  Priority := NewPriority task.Priority
                  Dates := NewDates task.Dates } }
            200
        calls := [ServiceCall.task id]
        bodyClosed := true }

/-- The update handler of `src/unnamed/part_000`.  As in `create`, the
decode result stands for `json.Decode`, and on decode failure the handler
returns before `defer r.Body.Close()` is reached. -/
def TaskHandler.update (t : TaskHandler) (id : String) (decodeResult : Option UpdateTasksRequest) : HandlerOutcome :=
  match decodeResult with
  | Option.none =>
      { response := renderErrorResponseStatus "invalid request" 400
        calls := []
        bodyClosed := false }
  | some req =>
      match t.svc.Update id req.Description req.Priority.Convert req.Dates.Convert req.IsDone with
      | some _ =>
          { response := renderErrorResponseStatus "update failed" 500
            calls := [ServiceCall.update id req.Description req.Priority.Convert req.Dates.Convert req.IsDone]
            bodyClosed := true }
      | Option.none =>
          { response := renderResponse marshalEmptyStruct () 200
            calls := [ServiceCall.update id req.Description req.Priority.Convert req.Dates.Convert req.IsDone]
            bodyClosed := true }

/-- `uuidRegEx` of `src/unnamed/part_000`, the route constraint for the
`id` path variable. -/
def uuidRegEx : String :=
  "[0-9a-fA-F]\x7b8\x7d\\-[0-9a-fA-F]\x7b4\x7d\\-[0-9a-fA-F]\x7b4\x7d\\-[0-9a-fA-F]\x7b4\x7d\\-[0-9a-fA-F]\x7b12\x7d"

/-- A hexadecimal digit, the character class `[0-9a-fA-F]` of `uuidRegEx`. -/
def isHexDigit (c : Char) : Bool :=
  ('0' ≤ c && c ≤ '9') || ('a' ≤ c && c ≤ 'f') || ('A' ≤ c && c ≤ 'F')

/-- Split a character list at every hyphen (the groups between the
`\-` separators of `uuidRegEx`). -/
def splitDash : List Char → List (List Char)
  | [] => [[]]
  | c :: rest =>
      let r := splitDash rest
      if c = '-' then [] :: r
      else
        match r with
        | [] => [[c]]
        | g :: gs => (c :: g) :: gs

/-- The semantics of `uuidRegEx` anchored to a whole path segment: five
hyphen-separated groups of hexadecimal digits of lengths 8, 4, 4, 4 and
12. -/
def matchesUuidRegEx (s : String) : Bool :=
  match splitDash s.toList with
  | [a, b, c, d, e] =>
      a.length == 8 && b.length == 4 && c.length == 4 && d.length == 4 && e.length == 12 &&
        (a ++ b ++ c ++ d ++ e).all isHexDigit
  | _ => false

/-- The three handler functions that `Register` can bind. -/
inductive HandlerId
  | create
  | task
  | update
deriving DecidableEq

/-- The two path templates registered: `/tasks` and
`/tasks/{id:uuidRegEx}`. -/
inductive PathPattern
  | tasks
  | taskById
deriving DecidableEq

/-- Modelled from the spec: `gorilla/mux` template matching for the two
registered templates, on a path given as its segment list.  A template
matches when the path has the template's shape and every constrained
variable segment matches its regular expression in full — "requests whose
`id` segment does not match the canonical 8-4-4-4-12 hexadecimal UUID
shape must not reach the handler". -/
def PathPattern.matches : PathPattern → List String → Bool
  | PathPattern.tasks, ["tasks"] => true
  | PathPattern.taskById, ["tasks", seg] => matchesUuidRegEx seg
  | _, _ => false

/-- One registered route: HTTP method, path template, bound handler. -/
structure Route where
  method : String
  pattern : PathPattern
  handler : HandlerId
deriving DecidableEq

/-- `TaskHandler.Register` of `src/unnamed/part_000` as the list of routes
it registers, in registration order. -/
def Register : List Route :=
  [ { method := "POST", pattern := PathPattern.tasks, handler := HandlerId.create }
  , { method := "GET", pattern := PathPattern.taskById, handler := HandlerId.task }
  , { method := "PUT", pattern := PathPattern.taskById, handler := HandlerId.update } ]

/-- Modelled from the spec: router dispatch over the registered routes —
the first route whose method and template match handles the request;
otherwise no handler is reached. -/
def dispatch (method : String) (path : List String) : Option HandlerId :=
  (Register.find? (fun r => r.method == method && r.pattern.matches path)).map Route.handler

end Rest

/-- Wire-to-domain-to-wire round trip on priorities is the identity. -/
theorem NewPriority_Convert (p : Rest.Priority) : Rest.NewPriority p.Convert = p := by
  cases p <;> rfl

/-- Wire-to-domain-to-wire round trip on date pairs is the identity. -/
theorem NewDates_Convert (d : Rest.Dates) : Rest.NewDates d.Convert = d := rfl

/-- A concrete service double whose fetch fails with a not-found domain
error carrying a raw storage message. -/
def notFoundService : Rest.TaskService :=
  { Create := fun _ _ _ => Except.error (ErrVal.domain Internal.ErrorCode.notFound "no rows in result set" [])
    Task := fun _ => Except.error (ErrVal.domain Internal.ErrorCode.notFound "no rows in result set" [])
    Update := fun _ _ _ _ _ => some (ErrVal.domain Internal.ErrorCode.notFound "no rows in result set" []) }

/-- A concrete service double whose operations succeed, echoing the create
arguments under the assigned ID "abc-123". -/
def echoService : Rest.TaskService :=
  { Create := fun d p dd => Except.ok { ID := "abc-123", Description := d, Priority := p, Dates := dd }
    Task := fun i => Except.ok { ID := i, Description := "", Priority := Internal.Priority.unset, Dates := { start := Option.none, due := Option.none } }
    Update := fun _ _ _ _ _ => Option.none }

/-- C8: for every value and status given to the response renderer, the
`Content-Type` header is `application/json`; when marshalling succeeds the
given status and the serialized body are written, and when it fails status
500 is written with no body. -/
theorem renderResponse_contract {α : Type} (marshal : α → Option String) (res : α) (status : Nat) :
    (Rest.renderResponse marshal res status).contentType = some "application/json" ∧
    (∀ s, marshal res = some s →
      Rest.renderResponse marshal res status =
        { contentType := some "application/json", status := status, body := some s }) ∧
    (marshal res = Option.none →
      Rest.renderResponse marshal res status =
        { contentType := some "application/json", status := 500, body := Option.none }) := by
  rcases hm : marshal res with _ | s
  · refine ⟨?_, ?_, ?_⟩
    · simp [Rest.renderResponse, hm]
    · intro s hs
      exact absurd hs (by simp)
    · intro _
      simp [Rest.renderResponse, hm]
  · refine ⟨?_, ?_, ?_⟩
    · simp [Rest.renderResponse, hm]
    · intro s2 hs
      injection hs with h
      subst h
      simp [Rest.renderResponse, hm]
    · intro hn
      exact absurd hn (by simp)

/-- Witness for C8 at a marshal that succeeds with `{}` and one that
fails. -/
theorem renderResponse_contract_witness :
    Rest.renderResponse (fun _ : Unit => some "\x7b\x7d") () 200 =
      { contentType := some "application/json", status := 200, body := some "\x7b\x7d" } ∧
    Rest.renderResponse (fun _ : Unit => (Option.none : Option String)) () 200 =
      { contentType := some "application/json", status := 500, body := Option.none } :=
  ⟨(renderResponse_contract (fun _ : Unit => some "\x7b\x7d") () 200).2.1 _ rfl,
   (renderResponse_contract (fun _ : Unit => (Option.none : Option String)) () 200).2.2 rfl⟩

/-- C3: every error value that does not carry the recognized domain
classification is rendered with the generic body
`{"error":"internal error"}` and status 500; neither the caller message
nor the underlying error string appears. -/
theorem unclassified_error_renders_internal_error_500 (msg : String) (err : ErrVal)
    (h : carriesClassification err = false) :
    Rest.renderErrorResponse msg err =
      { contentType := some "application/json", status := 500,
        body := some "\x7b\"error\":\"internal error\"\x7d" } := by
  cases err with
  | nil => rfl
  | plain s => rfl
  | domain code orig v => simp [carriesClassification, errorsAsInternal] at h

/-- Witness for C3 at a plain storage error with caller message
"find failed". -/
theorem unclassified_error_renders_internal_error_500_witness :
    carriesClassification (ErrVal.plain "dial tcp: connection refused") = false ∧
    Rest.renderErrorResponse "find failed" (ErrVal.plain "dial tcp: connection refused") =
      { contentType := some "application/json", status := 500,
        body := some "\x7b\"error\":\"internal error\"\x7d" } :=
  ⟨rfl, unclassified_error_renders_internal_error_500 "find failed" (ErrVal.plain "dial tcp: connection refused") rfl⟩

/-- C10: a nil error value fails the classification downcast, so the body
is the generic `{"error":"internal error"}` (the caller message is
discarded) and the status is 500. -/
theorem nil_error_renders_internal_error_500 (msg : String) :
    Rest.renderErrorResponse msg ErrVal.nil =
      { contentType := some "application/json", status := 500,
        body := some "\x7b\"error\":\"internal error\"\x7d" } := rfl

/-- C4: every invalid-argument classified error is rendered with status
400, and when it carries a non-empty field-validation mapping that exact
mapping is attached to the body under the `validations` key. -/
theorem invalidArgument_renders_400_with_validations (msg orig : String) (v : List (String × String)) :
    (Rest.renderErrorResponse msg (ErrVal.domain Internal.ErrorCode.invalidArgument orig v)).status = 400 ∧
    (v ≠ [] →
      (Rest.renderErrorResponse msg (ErrVal.domain Internal.ErrorCode.invalidArgument orig v)).body =
        some ("\x7b\"error\":" ++ encodeJSONString msg ++
          (",\"validations\":" ++ Rest.marshalValidationErrors v) ++ "\x7d")) := by
  constructor
  · rfl
  · intro hv
    cases v with
    | nil => exact absurd rfl hv
    | cons p ps => rfl

/-- Witness for C4 at the mapping `{"description":"required"}`. -/
theorem invalidArgument_renders_400_with_validations_witness :
    (Rest.renderErrorResponse "create failed"
      (ErrVal.domain Internal.ErrorCode.invalidArgument "invalid task" [("description", "required")])).status = 400 ∧
    (Rest.renderErrorResponse "create failed"
      (ErrVal.domain Internal.ErrorCode.invalidArgument "invalid task" [("description", "required")])).body =
      some "\x7b\"error\":\"create failed\",\"validations\":\x7b\"description\":\"required\"\x7d\x7d" := by
  have h := invalidArgument_renders_400_with_validations "create failed" "invalid task" [("description", "required")]
  refine ⟨h.1, ?_⟩
  rw [h.2 (by decide)]
  rfl

/-- C2: for every create or update request whose body fails to decode,
the handler responds 400 with body `{"error":"invalid request"}` and the
service collaborator is never invoked. -/
theorem invalid_json_renders_400_without_service_call (svc : Rest.TaskService) (id : String) :
    ((Rest.NewTaskHandler svc).create Option.none).response =
      { contentType := some "application/json", status := 400,
        body := some "\x7b\"error\":\"invalid request\"\x7d" } ∧
    ((Rest.NewTaskHandler svc).create Option.none).calls = [] ∧
    ((Rest.NewTaskHandler svc).update id Option.none).response =
      { contentType := some "application/json", status := 400,
        body := some "\x7b\"error\":\"invalid request\"\x7d" } ∧
    ((Rest.NewTaskHandler svc).update id Option.none).calls = [] :=
  ⟨rfl, rfl, rfl, rfl⟩

/-- C5: for every create request that decodes and whose service call
succeeds with a task echoing the request's fields, the response is 201
with body `{"task":{...}}` carrying the service-assigned ID and exactly
the request's description, priority and dates. -/
theorem create_success_renders_201_mirroring_request (svc : Rest.TaskService)
    (req : Rest.CreateTasksRequest) (t : Internal.Task)
    (hcall : svc.Create req.Description req.Priority.Convert req.Dates.Convert = Except.ok t)
    (hdesc : t.Description = req.Description)
    (hprio : t.Priority = req.Priority.Convert)
    (hdates : t.Dates = req.Dates.Convert) :
    ((Rest.NewTaskHandler svc).create (some req)).response =
      { contentType := some "application/json", status := 201,
        body := some ("\x7b\"task\":" ++
          Rest.Task.marshal
            { ID := t.ID, Description := req.Description,
              Priority := req.Priority, Dates := req.Dates } ++ "\x7d") } := by
  simp only [Rest.NewTaskHandler, Rest.TaskHandler.create, hcall, hdesc, hprio, hdates,
    NewPriority_Convert, NewDates_Convert, Rest.renderResponse, Rest.marshalCreateTasksResponse]

/-- Witness for C5 at a concrete request and the echoing service double. -/
theorem create_success_renders_201_mirroring_request_witness :
    ((Rest.NewTaskHandler echoService).create
      (some { Description := "new task", Priority := Rest.Priority.low,
              Dates := { start := some "2024-01-01", due := Option.none } })).response =
      { contentType := some "application/json", status := 201,
        body := some ("\x7b\"task\":" ++
          Rest.Task.marshal
            { ID := "abc-123", Description := "new task",
              Priority := Rest.Priority.low,
              Dates := { start := some "2024-01-01", due := Option.none } } ++ "\x7d") } :=
  create_success_renders_201_mirroring_request echoService
    { Description := "new task", Priority := Rest.Priority.low,
      Dates := { start := some "2024-01-01", due := Option.none } }
    { ID := "abc-123", Description := "new task", Priority := Internal.Priority.low,
      Dates := { start := some "2024-01-01", due := Option.none } }
    rfl rfl rfl rfl

/-- C6: for every update request that decodes and whose service call
succeeds, the handler responds 200 with body exactly `{}`. -/
theorem update_success_renders_200_empty_object (svc : Rest.TaskService) (id : String)
    (req : Rest.UpdateTasksRequest)
    (h : svc.Update id req.Description req.Priority.Convert req.Dates.Convert req.IsDone = Option.none) :
    ((Rest.NewTaskHandler svc).update id (some req)).response =
      { contentType := some "application/json", status := 200, body := some "\x7b\x7d" } := by
  simp only [Rest.NewTaskHandler, Rest.TaskHandler.update, h, Rest.renderResponse,
    Rest.marshalEmptyStruct]

/-- Witness for C6 at a concrete update request against the succeeding
service double. -/
theorem update_success_renders_200_empty_object_witness :
    ((Rest.NewTaskHandler echoService).update "11111111-2222-3333-4444-555555555555"
      (some { Description := "new task", IsDone := true, Priority := Rest.Priority.high,
              Dates := { start := Option.none, due := some "2024-02-01" } })).response =
      { contentType := some "application/json", status := 200, body := some "\x7b\x7d" } :=
  update_success_renders_200_empty_object echoService "11111111-2222-3333-4444-555555555555"
    { Description := "new task", IsDone := true, Priority := Rest.Priority.high,
      Dates := { start := Option.none, due := some "2024-02-01" } }
    rfl

/-- Counterexample for C1: a fetch whose service call fails with a
not-found classified error is answered with status 500, not 404 — the
fetch handler passes `http.StatusInternalServerError` for every service
error. -/
theorem fetch_notFound_status_counterexample :
    ((Rest.NewTaskHandler notFoundService).task "11111111-2222-3333-4444-555555555555").response.status = 500 ∧
    ((Rest.NewTaskHandler notFoundService).task "11111111-2222-3333-4444-555555555555").response.status ≠ 404 := by
  decide

/-- C1 as amended: for every fetch request whose service call fails — with
a not-found classified error or any other — the response status is 500
and the body's error text is the caller-supplied "find failed", never the
raw underlying error string. -/
theorem fetch_service_error_renders_find_failed_500 (svc : Rest.TaskService) (id : String)
    (e : ErrVal) (h : svc.Task id = Except.error e) :
    ((Rest.NewTaskHandler svc).task id).response =
      { contentType := some "application/json", status := 500,
        body := some "\x7b\"error\":\"find failed\"\x7d" } := by
  simp only [Rest.NewTaskHandler, Rest.TaskHandler.task, h, Rest.renderErrorResponseStatus,
    Rest.renderResponse, Rest.marshalErrorResponse]
  rfl

/-- Witness for C1's amended theorem at the not-found service double. -/
theorem fetch_service_error_renders_find_failed_500_witness :
    ((Rest.NewTaskHandler notFoundService).task "11111111-2222-3333-4444-555555555555").response =
      { contentType := some "application/json", status := 500,
        body := some "\x7b\"error\":\"find failed\"\x7d" } :=
  fetch_service_error_renders_find_failed_500 notFoundService
    "11111111-2222-3333-4444-555555555555"
    (ErrVal.domain Internal.ErrorCode.notFound "no rows in result set" []) rfl

/-- C7 evaluated at the failing input: on the decode-failure path of both
create and update the handler returns before `defer r.Body.Close()` is
registered, so the request body is not closed there, while on the decode-
success paths it is. -/
theorem decode_failure_leaves_body_unclosed :
    ((Rest.NewTaskHandler echoService).create Option.none).bodyClosed = false ∧
    ((Rest.NewTaskHandler echoService).update "11111111-2222-3333-4444-555555555555" Option.none).bodyClosed = false ∧
    ((Rest.NewTaskHandler echoService).create
      (some { Description := "", Priority := Rest.Priority.unset,
              Dates := { start := Option.none, due := Option.none } })).bodyClosed = true :=
  ⟨rfl, rfl, rfl⟩

/-- C9: registration binds exactly the three routes (POST `/tasks` to
create, GET and PUT `/tasks/{id}` to fetch and update), and a path whose
`id` segment does not match the 8-4-4-4-12 hexadecimal UUID shape is
never dispatched to the fetch or update handler. -/
theorem register_binds_three_routes_with_uuid_guard :
    Rest.Register.length = 3 ∧
    Rest.dispatch "POST" ["tasks"] = some Rest.HandlerId.create ∧
    (∀ seg, Rest.matchesUuidRegEx seg = true →
      Rest.dispatch "GET" ["tasks", seg] = some Rest.HandlerId.task ∧
      Rest.dispatch "PUT" ["tasks", seg] = some Rest.HandlerId.update) ∧
    (∀ seg, Rest.matchesUuidRegEx seg = false →
      Rest.dispatch "GET" ["tasks", seg] = Option.none ∧
      Rest.dispatch "PUT" ["tasks", seg] = Option.none) := by
  refine ⟨rfl, rfl, ?_, ?_⟩ <;>
    intro seg h <;>
    constructor <;>
    simp [Rest.dispatch, Rest.Register, List.find?, Rest.PathPattern.matches, h]

/-- Witness for C9 at a conforming and at a non-conforming `id` segment. -/
theorem register_binds_three_routes_with_uuid_guard_witness :
    Rest.matchesUuidRegEx "11111111-2222-3333-4444-555555555555" = true ∧
    Rest.dispatch "GET" ["tasks", "11111111-2222-3333-4444-555555555555"] = some Rest.HandlerId.task ∧
    Rest.matchesUuidRegEx "not-a-uuid" = false ∧
    Rest.dispatch "PUT" ["tasks", "not-a-uuid"] = Option.none :=
  ⟨by decide,
   (register_binds_three_routes_with_uuid_guard.2.2.1 "11111111-2222-3333-4444-555555555555" (by decide)).1,
   by decide,
   (register_binds_three_routes_with_uuid_guard.2.2.2 "not-a-uuid" (by decide)).2⟩
